import Mathlib

/-!
Verification of the GreenCore API (Tofik-San/greencore_api) against its
natural-language specification.  The Python source under scrutiny is
`app.py` (admission-gate middleware, /plants filter translation, key
issuance, YooKassa payment session and webhook) and `auth/router.py`
(passwordless login).  Every definition below is a shallow embedding of
the corresponding Python/SQL code; timestamps are modelled as natural
numbers (seconds), database tables as lists of rows, and the fresh
high-entropy keys produced by `secrets.token_hex` as explicit parameters.
-/

namespace GreenCore

/-! ## String helpers mirroring Python / PostgreSQL primitives -/

/-- Python `str.lower()` restricted to the alphabets this code base uses:
ASCII letters and the Russian Cyrillic block (А..Я plus Ё). -/
def pyLowerChar (c : Char) : Char :=
  if 'A' ≤ c ∧ c ≤ 'Z' then Char.ofNat (c.toNat + 32)
  else if 'А' ≤ c ∧ c ≤ 'Я' then Char.ofNat (c.toNat + 32)
  else if c = 'Ё' then 'ё'
  else c

/-- Python `str.lower()` (and SQL `LOWER`) on a whole string. -/
def pyLower (s : String) : String :=
  String.mk (s.data.map pyLowerChar)

/-- Python `str.strip()`: remove leading and trailing whitespace. -/
def pyStrip (s : String) : String :=
  String.mk (((s.data.dropWhile Char.isWhitespace).reverse.dropWhile
    Char.isWhitespace).reverse)

/-- SQL `TRIM(...)` with the default space-only trimming. -/
def sqlTrim (s : String) : String :=
  String.mk (((s.data.dropWhile (· = ' ')).reverse.dropWhile (· = ' ')).reverse)

/-- Boolean test that `p` is a prefix of `h` (Python `str.startswith`
on the character lists of the two strings). -/
def startsWithChars (p h : List Char) : Bool :=
  match p, h with
  | [], _ => true
  | _ :: _, [] => false
  | a :: as, b :: bs => a == b && startsWithChars as bs

/-- Boolean test that `p` occurs as a contiguous substring of `h`
(SQL `LIKE :pat` with a pattern of the shape percent-text-percent). -/
def substrChars (p : List Char) : List Char → Bool
  | [] => p.isEmpty
  | c :: rest => startsWithChars p (c :: rest) || substrChars p rest

/-- SQL `LIKE` with pattern percent-`pat`-percent against `hay`. -/
def likeContains (hay pat : String) : Bool :=
  substrChars pat.data hay.data

theorem startsWithChars_iff (p h : List Char) :
    startsWithChars p h = true ↔ p <+: h := by
  induction p generalizing h with
  | nil => simp [startsWithChars]
  | cons a as ih =>
    cases h with
    | nil => simp [startsWithChars]
    | cons b bs =>
      simp [startsWithChars, List.cons_prefix_cons, ih, beq_iff_eq]

theorem substrChars_iff (p h : List Char) :
    substrChars p h = true ↔ p <:+: h := by
  induction h with
  | nil =>
    simp [substrChars, List.isEmpty_iff, List.infix_nil]
  | cons c rest ih =>
    simp [substrChars, startsWithChars_iff, ih, List.infix_cons_iff]

/-! ## Data model: api_keys rows and request logs -/

/-- A row of the `api_keys` table, with exactly the columns the code
reads or writes: `api_key`, `owner`, `plan_name`, `active`,
`created_at`, `expires_at`, `requests` (the usage counter),
`limit_total` (the plan quota copied onto the key) and `max_page`. -/
structure ApiKeyRow where
  api_key : String
  owner : String
  plan_name : String
  active : Bool
  created_at : Nat
  expires_at : Option Nat
  requests : Nat
  limit_total : Option Nat
  max_page : Option Nat
deriving Repr, DecidableEq

/-- A row of the `api_logs` table: key, endpoint, status code. -/
abbrev LogRow : Type := String × String × Nat

/-- The errors the admission gate can raise, together with the
spec's taxonomy names. -/
inductive GateError where
  | unauthenticated
  | invalidCredential
  | inactive
  | expired
  | quotaExceeded
  | filterNotPermitted
deriving Repr, DecidableEq

/-- HTTP status carried by each gate error, as raised by the code
(401 for a missing key, 403 for invalid/inactive/expired/filter,
429 for the quota). -/
def statusOf : GateError → Nat
  | .unauthenticated => 401
  | .invalidCredential => 403
  | .inactive => 403
  | .expired => 403
  | .quotaExceeded => 429
  | .filterNotPermitted => 403

/-! ## Admission gate (middleware `verify_dynamic_api_key`, app.py) -/

/-- The `open_paths` list of the middleware, verbatim. -/
def openPaths : List String :=
  ["/docs", "/openapi.json", "/health", "/generate_key", "/create_user_key",
   "/plans", "/api/payment/session", "/api/payment/webhook",
   "/api/payments/latest"]

/-- Python `path.rstrip(,/,)`: drop trailing slashes. -/
def rstripSlash (s : String) : String :=
  String.mk ((s.data.reverse.dropWhile (· = '/')).reverse)

/-- Exemption test of the middleware: `/auth` prefixes are always open,
and any path whose slash-stripped form starts with a slash-stripped
member of `openPaths` is open. -/
def isExemptPath (path : String) : Bool :=
  startsWithChars "/auth".data path.data
  || openPaths.any (fun p =>
      startsWithChars (rstripSlash p).data (rstripSlash path).data)

/-- Python truthiness check `r[expires_at] and r[expires_at] < utcnow()`. -/
def expiredAt (expires_at : Option Nat) (now : Nat) : Bool :=
  match expires_at with
  | some e => decide (e < now)
  | none => false

/-- Python truthiness check `r[limit_total] and r[requests] >= r[limit_total]`:
a NULL or zero `limit_total` is falsy and disables the quota check. -/
def limitReached (limit_total : Option Nat) (requests : Nat) : Bool :=
  match limit_total with
  | some lt => (lt != 0) && decide (lt ≤ requests)
  | none => false

/-- The post-response accounting `UPDATE api_keys SET requests=requests+1
WHERE api_key=:key`. -/
def incrementRequests (keys : List ApiKeyRow) (k : String) : List ApiKeyRow :=
  keys.map (fun r => if r.api_key == k then {r with requests := r.requests + 1} else r)

/-- The middleware `verify_dynamic_api_key` of app.py.  The inner handler
(`call_next`) is abstracted by the status code `handlerStatus` it would
respond with.  The body between reading the `X-API-Key` header and
`r = row._mapping` is elided in the source (comment line 84); the lookup
is modelled from the spec: the credential is resolved against the key
store and, when it matches no known key, the request fails with
`InvalidCredential` (403).  Everything else is transcribed from the
source: OPTIONS and exempt paths pass through untouched; a missing or
empty header is a 401; then inactive, expired and quota checks in that
order; on admission the handler runs and afterwards the usage counter is
incremented and a log row appended, whatever the response status was. -/
def verify_dynamic_api_key (keys : List ApiKeyRow) (logs : List LogRow)
    (now : Nat) (method path : String) (header : Option String)
    (handlerStatus : Nat) :
    Except GateError (Nat × List ApiKeyRow × List LogRow) :=
  if method == "OPTIONS" then .ok (handlerStatus, keys, logs)
  else if isExemptPath path then .ok (handlerStatus, keys, logs)
  else
    match header with
    | none => .error .unauthenticated
    | some api_key =>
      if api_key == "" then .error .unauthenticated
      else
        match keys.find? (fun r => r.api_key == api_key) with
        | none => .error .invalidCredential
        | some r =>
          if r.active = false then .error .inactive
          else if expiredAt r.expires_at now then .error .expired
          else if limitReached r.limit_total r.requests then .error .quotaExceeded
          else
            .ok (handlerStatus, incrementRequests keys api_key,
                 logs ++ [(api_key, path, handlerStatus)])

/-! ## Plans, pending payments, webhook (app.py) -/

/-- A row of the `plans` table with the columns the code reads:
name, price_rub, limit_total, max_page. -/
structure PlanRow where
  name : String
  price_rub : Nat
  limit_total : Option Nat
  max_page : Option Nat
deriving Repr, DecidableEq

/-- A row of the `pending_payments` table. -/
structure PendingPayment where
  payment_id : String
  plan_name : String
  email : String
  amount : Nat
  status : String
  api_key : Option String
  paid_at : Option Nat
  updated_at : Option Nat
deriving Repr, DecidableEq

/-- The plan lookup `SELECT limit_total, max_page FROM plans WHERE
LOWER(name)=LOWER(:p)` shared by `generate_api_key` and the webhook. -/
def findPlan (plans : List PlanRow) (p : String) : Option PlanRow :=
  plans.find? (fun q => pyLower q.name == pyLower p)

/-- The body of `update_status_and_key`, the background task scheduled by
the `/api/payment/webhook` handler for a payload carrying `status` and
`payment_id = pid`.  `newKey` stands for the fresh `secrets.token_hex(32)`
value.  Transcribed from the source: first the row's status (and
updated_at) is overwritten; then, when the status is the literal
"succeeded" and a pending row with that id exists, a new `api_keys` row is
inserted with the plan's limits and the pending row is stamped with the
new key and `paid_at` — with no check whether `api_key` was already set. -/
def update_status_and_key (pps : List PendingPayment) (keys : List ApiKeyRow)
    (plans : List PlanRow) (status pid newKey : String) (now : Nat) :
    List PendingPayment × List ApiKeyRow :=
  let pps1 := pps.map (fun p =>
    if p.payment_id == pid then {p with status := status, updated_at := some now} else p)
  if status == "succeeded" then
    match pps1.find? (fun p => p.payment_id == pid) with
    | none => (pps1, keys)
    | some row =>
      let pl := findPlan plans row.plan_name
      let lt := match pl with | some q => q.limit_total | none => none
      let mp := match pl with | some q => q.max_page | none => none
      let keys1 := keys ++ [{ api_key := newKey, owner := row.email,
                              plan_name := row.plan_name, active := true,
                              created_at := now, expires_at := none,
                              requests := 0, limit_total := lt, max_page := mp }]
      let pps2 := pps1.map (fun p =>
        if p.payment_id == pid then {p with api_key := some newKey, paid_at := some now} else p)
      (pps2, keys1)
  else (pps1, keys)

/-- Outcome of `create_payment_session` up to the point where the external
YooKassa request would be sent: either an HTTP error raised before the
processor is contacted, or the payment request that is about to be made. -/
inductive SessionResult where
  | httpError (status : Nat) (detail : String)
  | paymentRequested (amountValue : Nat) (plan : String) (email : String)
deriving Repr, DecidableEq

/-- POST `/api/payment/session` (app.py `create_payment_session`), up to
the processor call.  Query parameters default to plan "free" and email
"unknown@example.com"; the plan is lower-cased; missing YooKassa
credentials are a 500; a plan absent from `plans` is a 404 with detail
"Plan not found"; otherwise the payment request for `price_rub` is
issued — there is no check singling out the free tier. -/
def create_payment_session (plans : List PlanRow)
    (qpPlan qpEmail : Option String) (credsSet : Bool) : SessionResult :=
  let plan := pyLower (qpPlan.getD "free")
  let email := qpEmail.getD "unknown@example.com"
  if !credsSet then .httpError 500 "YooKassa credentials not set"
  else
    match plans.find? (fun p => pyLower p.name == plan) with
    | none => .httpError 404 "Plan not found"
    | some row => .paymentRequested row.price_rub plan email

/-! ## Key issuance (app.py `generate_api_key`, `create_user_key`) -/

/-- POST `/generate_key` (app.py).  Requires the master key; deactivates
the owner's previously active keys; a "free" plan key expires in 90 days;
plan limits are copied from the `plans` table (NULL when the plan is
unknown); the new key row is inserted active.  `newKey` stands for
`secrets.token_hex(32)`. -/
def generate_api_key (masterKey providedKey : String) (keys : List ApiKeyRow)
    (plans : List PlanRow) (owner plan : String) (now : Nat) (newKey : String) :
    Except (Nat × String) (List ApiKeyRow × Option Nat × Option Nat) :=
  if providedKey != masterKey then
    .error (403, "Access denied: admin key required")
  else
    let ownerNorm := pyLower (pyStrip owner)
    let keys1 := keys.map (fun r =>
      if pyLower r.owner == ownerNorm && r.active then {r with active := false} else r)
    let expires := if plan == "free" then some (now + 90 * 86400) else none
    let pl := findPlan plans plan
    let lt := match pl with | some q => q.limit_total | none => none
    let mp := match pl with | some q => q.max_page | none => none
    .ok (keys1 ++ [{ api_key := newKey, owner := ownerNorm, plan_name := plan,
                     active := true, created_at := now, expires_at := expires,
                     requests := 0, limit_total := lt, max_page := mp }],
         lt, mp)

/-- The `ORDER BY created_at DESC LIMIT 1` of `create_user_key`:
the most recent creation timestamp among the selected rows. -/
def maxCreatedAt : List Nat → Option Nat
  | [] => none
  | c :: rest =>
    match maxCreatedAt rest with
    | none => some c
    | some m => some (Nat.max c m)

/-- POST `/create_user_key` (app.py).  The requested plan (query
parameter, default "free") is stripped and lower-cased; only when it
equals "free" is the last free key issued to this IP looked up and the
request refused with 429 when it is younger than 24 hours; in every case
that passes, issuance is delegated to `generate_api_key` called with the
master key. -/
def create_user_key (masterKey : String) (keys : List ApiKeyRow)
    (plans : List PlanRow) (ip : String) (planQ : Option String) (now : Nat)
    (newKey : String) :
    Except (Nat × String) (List ApiKeyRow × Option Nat × Option Nat) :=
  let plan := pyLower (pyStrip (planQ.getD "free"))
  if plan == "free" then
    match maxCreatedAt (((keys.filter (fun r =>
        r.plan_name == "free" && r.owner == ip)).map (fun r => r.created_at))) with
    | some c =>
      if now - c < 86400 then
        .error (429, "Бесплатный ключ можно создавать не чаще одного раза в сутки.")
      else generate_api_key masterKey masterKey keys plans ip plan now newKey
    | none => generate_api_key masterKey masterKey keys plans ip plan now newKey
  else generate_api_key masterKey masterKey keys plans ip plan now newKey

/-! ## Passwordless login (auth/router.py `verify_login_token`) -/

/-- A row of the `auth_tokens` table. -/
structure AuthTokenRow where
  id : Nat
  user_id : Nat
  token : String
  expires_at : Nat
  used : Bool
deriving Repr, DecidableEq

/-- A row of the `users` table, with the columns this flow touches. -/
structure UserRow where
  id : Nat
  email : String
  api_key : Option String
  last_login : Option Nat
deriving Repr, DecidableEq

/-- The 400-level failures of POST `/auth/verify`, named by their
`detail` strings. -/
inductive VerifyError where
  | invalidToken
  | tokenAlreadyUsed
  | tokenExpired
deriving Repr, DecidableEq

/-- POST `/auth/verify` (auth/router.py `verify_login_token`).  The joined
row is fetched by token string; a missing row is `invalid_token`; a used
token is `token_already_used` (checked before expiry); an expired token is
`token_expired`; on success the token is marked used, and the user either
receives the fresh key `freshKey` (when they had none) or keeps their
existing one, with `last_login` updated either way.  Returns the user id,
the returned api key, and the updated tables. -/
def verify_login_token (tokens : List AuthTokenRow) (users : List UserRow)
    (tok : String) (now : Nat) (freshKey : String) :
    Except VerifyError (Nat × String × List AuthTokenRow × List UserRow) :=
  match tokens.find? (fun t => t.token == tok) with
  | none => .error .invalidToken
  | some t =>
    match users.find? (fun u => u.id == t.user_id) with
    | none => .error .invalidToken
    | some u =>
      if t.used then .error .tokenAlreadyUsed
      else if t.expires_at < now then .error .tokenExpired
      else
        let tokens1 := tokens.map (fun t2 =>
          if t2.id == t.id then {t2 with used := true} else t2)
        match u.api_key with
        | none =>
          .ok (u.id, freshKey, tokens1,
               users.map (fun u2 =>
                 if u2.id == u.id then {u2 with api_key := some freshKey, last_login := some now}
                 else u2))
        | some k =>
          .ok (u.id, k, tokens1,
               users.map (fun u2 =>
                 if u2.id == u.id then {u2 with last_login := some now} else u2))

/-! ## Zone filter (app.py `get_plants`, zone_usda branch) -/

/-- The dash normalization `REPLACE(REPLACE(s,typographic dashes,'-'))`:
both the en dash and the em dash become a plain hyphen. -/
def normDash (s : String) : String :=
  String.mk (s.data.map (fun c => if c = '–' ∨ c = '—' then '-' else c))

/-- Splitting a character list at hyphens (PostgreSQL `SPLIT_PART`
semantics: fields between occurrences of the delimiter). -/
def splitDash : List Char → List (List Char)
  | [] => [[]]
  | '-' :: rest => [] :: splitDash rest
  | c :: rest =>
    match splitDash rest with
    | [] => [[c]]
    | g :: gs => (c :: g) :: gs

/-- PostgreSQL `SPLIT_PART(s,'-',n)` (1-based, empty when out of range). -/
def splitPart (s : String) (n : Nat) : String :=
  String.mk ((splitDash s.data).getD (n - 1) [])

/-- Digits-only parse of a character list. -/
def parseDigits (cs : List Char) : Option Nat :=
  if cs.isEmpty then none
  else cs.foldl (fun acc c =>
    match acc with
    | none => none
    | some n => if c.isDigit then some (n * 10 + (c.toNat - 48)) else none) (some 0)

/-- PostgreSQL text-to-int cast (`::int`): surrounding whitespace is
tolerated, then an optional sign and a non-empty digit string; anything
else raises a cast error (`none`). -/
def pgToInt (s : String) : Option Int :=
  match pyStrip s |>.data with
  | '+' :: rest => (parseDigits rest).map Int.ofNat
  | '-' :: rest => (parseDigits rest).map (fun n => -(n : Int))
  | cs => (parseDigits cs).map Int.ofNat

/-- Python `int(str)` on the stripped query input; same accepted shapes. -/
def pyToInt (s : String) : Option Int := pgToInt s

/-- The stored-range parse performed inside the SQL predicate: normalize
dashes, then either split at the hyphen into two casts, or cast the whole
value twice (a single zone is the range `[v,v]`).  `none` means one of
the casts raises. -/
def zoneRangeParse (stored : String) : Option (Int × Int) :=
  let n := normDash stored
  if n.data.contains '-' then
    match pgToInt (splitPart n 1), pgToInt (splitPart n 2) with
    | some a, some b => some (a, b)
    | _, _ => none
  else
    match pgToInt n with
    | some v => some (v, v)
    | none => none

/-- The SQL predicate appended for `zone_usda`: a row with a blank stored
value never matches; otherwise the stored bounds are cast (an uncastable
value raises, failing the whole query, modelled as `Except.error`) and
compared against the bound parameters `zmin`/`zmax`. -/
def zoneSqlPred (zmin zmax : Int) (stored : String) : Except Unit Bool :=
  if sqlTrim stored == "" then .ok false
  else
    match zoneRangeParse stored with
    | some (a, b) => .ok (decide (a ≤ zmax) && decide (zmin ≤ b))
    | none => .error ()

/-- The zone_usda branch of `get_plants`: the query input is stripped and
parsed by Python's `int`; on success the clamped bounds
`zmin = max(z-1,1)`, `zmax = min(z+1,12)` are bound into the SQL range
predicate; only when the query input itself fails to parse does the code
fall back to `COALESCE(filter_zone_usda,'') LIKE :zone` (a raw substring
match of the input against the stored value). -/
def zoneFilter (zone_usda stored : String) : Except Unit Bool :=
  let zInput := pyStrip zone_usda
  match pyToInt zInput with
  | some z => zoneSqlPred (max (z - 1) 1) (min (z + 1) 12) stored
  | none => .ok (likeContains stored zInput)

/-- Follows the spec's words, for comparison with `zoneFilter`: the zone
filter "matches iff `stored_min ≤ zone+1 AND stored_max ≥ zone-1`" for a
stored value parsing (after dash normalization) as a range `[a,b]`, and
"malformed/unparsable stored values fall back to raw substring match
rather than failing the whole query". -/
def zoneSpecMatch (z : Int) (stored : String) : Bool :=
  match zoneRangeParse stored with
  | some (a, b) => decide (a ≤ z + 1) && decide (z - 1 ≤ b)
  | none => likeContains stored (toString z)

/-! ## Light filter (app.py `LIGHT_PATTERNS` and the light branch) -/

/-- The `LIGHT_PATTERNS` dictionary, verbatim. -/
def LIGHT_PATTERNS : List (String × List String) :=
  [("тень", ["full shade", "shade", "тень", "indirect", "diffused"]),
   ("полутень", ["part shade", "partial", "полутень", "рассеян", "утреннее"]),
   ("яркий", ["full sun", "sun", "прямое солнце", "яркий", "солнеч"])]

/-- Python `LIGHT_PATTERNS.get(light, [])`. -/
def lightLookup (light : String) : List String :=
  match LIGHT_PATTERNS.find? (fun kv => kv.1 == light) with
  | some kv => kv.2
  | none => []

/-- The predicate the light branch of `get_plants` adds for one stored
`light` column value: when the expansion set is empty no clause is added
(every row passes); otherwise the OR-joined clauses
`LOWER(light) LIKE :light_i` with parameters percent-pattern-percent,
each pattern lower-cased in Python. -/
def lightSqlPred (light stored : String) : Bool :=
  let pats := lightLookup light
  if pats.isEmpty then true
  else pats.any (fun pat => likeContains (pyLower stored) (pyLower pat))

/-! ## Plan filter masking -/

/-- The always-allowed pagination/sort/search-field parameters of the
filter-masking rule. -/
def alwaysAllowedParams : List String :=
  ["limit", "offset", "page", "sort", "search_field"]

/-- Modelled from the spec: the plan-based filter masking ("if a plan
defines an allowed_filter set, any query parameter outside that set plus
a small always-allowed set (pagination/sort/search-field) fails with
FilterNotPermitted") is implemented in repository revisions that are not
among the files under src/; the revision in src/app.py only attaches
`max_page` to the request and applies no masking.  A `none` allowed set
is unrestricted; otherwise every query parameter name must belong to the
allowed set or to the always-allowed set. -/
def filterMaskCheck (allowedFilters : Option (List String))
    (queryParams : List (String × String)) : Except GateError Unit :=
  match allowedFilters with
  | none => .ok ()
  | some allow =>
    if queryParams.all (fun qp =>
        allow.contains qp.1 || alwaysAllowedParams.contains qp.1)
    then .ok ()
    else .error .filterNotPermitted

/-! ## Helper lemmas -/

theorem find?_map_of_pred_preserved {α : Type} (f : α → α) (p : α → Bool)
    (hp : ∀ x, p (f x) = p x) :
    ∀ (l : List α) (t : α), l.find? p = some t → (l.map f).find? p = some (f t) := by
  intro l
  induction l with
  | nil => intro t h; simp [List.find?] at h
  | cons a as ih =>
    intro t h
    by_cases hpa : p a = true
    · rw [List.find?_cons_of_pos _ hpa] at h
      injection h with h
      subst h
      rw [List.map_cons, List.find?_cons_of_pos _ (by rw [hp]; exact hpa)]
    · have hpa' : ¬ (p a = true) := hpa
      rw [List.find?_cons_of_neg _ hpa'] at h
      rw [List.map_cons, List.find?_cons_of_neg _ (by rw [hp]; exact hpa')]
      exact ih t h

/-! ## C1: webhook idempotence -/

/-- The pending payment of the C1 scenario, already in the store before
the first webhook delivery. -/
def c1Pending : PendingPayment :=
  { payment_id := "p1", plan_name := "premium", email := "a@b.com",
    amount := 990, status := "pending", api_key := none, paid_at := none,
    updated_at := none }

/-- State after the first delivery of the succeeded webhook for "p1". -/
def c1AfterFirst : List PendingPayment × List ApiKeyRow :=
  update_status_and_key [c1Pending] [] [] "succeeded" "p1" "K1" 100

/-- State after replaying the same succeeded webhook for "p1". -/
def c1AfterReplay : List PendingPayment × List ApiKeyRow :=
  update_status_and_key c1AfterFirst.1 c1AfterFirst.2 [] "succeeded" "p1" "K2" 200

/-- C1: the claim fails on the code.  After the first succeeded webhook
the pending row is fulfilled (its api_key is "K1") and one ApiKey row
exists; replaying the same payload is not a no-op: `update_status_and_key`
has no "api_key already set" guard, so a second ApiKey row is inserted for
the same payment_id and the pending row's api_key is even overwritten
with the new key. -/
theorem webhook_replay_mints_second_key :
    c1AfterFirst.1.map (fun p => p.api_key) = [some "K1"]
    ∧ c1AfterFirst.2.length = 1
    ∧ c1AfterReplay.2.length = 2
    ∧ c1AfterReplay.1.map (fun p => p.api_key) = [some "K2"] :=
  ⟨rfl, rfl, rfl, rfl⟩

/-! ## C3: quota is charged even on error responses -/

/-- A healthy key with quota headroom used in the C3 scenario. -/
def c3Key : ApiKeyRow :=
  { api_key := "K", owner := "o", plan_name := "free", active := true,
    created_at := 0, expires_at := none, requests := 7,
    limit_total := some 100, max_page := some 50 }

/-- C3: the claim is right and the code is wrong.  An admitted non-exempt
request whose handler responds with the error status 404 still has its
usage counter incremented: the middleware increments `requests`
unconditionally after `call_next`, with no check of the response status. -/
theorem gate_charges_quota_on_error_response :
    verify_dynamic_api_key [c3Key] [] 10 "GET" "/plants" (some "K") 404
      = Except.ok (404, [{c3Key with requests := 8}], [("K", "/plants", 404)]) :=
  rfl

/-! ## C2: admission gate rejection cases -/

/-- C2: for every non-exempt request, the gate fails with
Unauthenticated (401) when no credential header is present, with
InvalidCredential when the credential matches no known key, with Inactive
when the matched key's active flag is false, and with Expired when an
expiry timestamp exists and has passed — each rejection is an error
result produced for every handler status and every state of the usage
counter and quota, i.e. regardless of remaining quota and before any
handler logic or usage accounting runs. -/
theorem admission_gate_rejection_cases
    (keys : List ApiKeyRow) (logs : List LogRow) (now : Nat)
    (path : String) (hs : Nat) (hne : isExemptPath path = false) :
    (verify_dynamic_api_key keys logs now "GET" path none hs
        = Except.error GateError.unauthenticated
      ∧ statusOf GateError.unauthenticated = 401)
    ∧ (∀ k, k ≠ "" → keys.find? (fun r => r.api_key == k) = none →
        verify_dynamic_api_key keys logs now "GET" path (some k) hs
          = Except.error GateError.invalidCredential)
    ∧ (∀ k r, k ≠ "" → keys.find? (fun r2 => r2.api_key == k) = some r →
        r.active = false →
        verify_dynamic_api_key keys logs now "GET" path (some k) hs
          = Except.error GateError.inactive)
    ∧ (∀ k r e, k ≠ "" → keys.find? (fun r2 => r2.api_key == k) = some r →
        r.active = true → r.expires_at = some e → e < now →
        verify_dynamic_api_key keys logs now "GET" path (some k) hs
          = Except.error GateError.expired) := by
  have hm : (("GET" : String) == "OPTIONS") = false := rfl
  refine ⟨⟨?_, rfl⟩, ?_, ?_, ?_⟩
  · simp [verify_dynamic_api_key, hm, hne]
  · intro k hk hf
    simp [verify_dynamic_api_key, hm, hne, beq_eq_false_iff_ne.mpr hk, hf]
  · intro k r hk hf hact
    simp [verify_dynamic_api_key, hm, hne, beq_eq_false_iff_ne.mpr hk, hf, hact]
  · intro k r e hk hf hact he hlt
    simp [verify_dynamic_api_key, hm, hne, beq_eq_false_iff_ne.mpr hk, hf,
      hact, expiredAt, he, hlt]

/-- Demo key store for the C2 witness: an inactive key and an expired
active key, both with plenty of quota left. -/
def c2Keys : List ApiKeyRow :=
  [{ api_key := "INA", owner := "o", plan_name := "free", active := false,
     created_at := 0, expires_at := none, requests := 0,
     limit_total := some 10, max_page := none },
   { api_key := "EXP", owner := "o", plan_name := "free", active := true,
     created_at := 0, expires_at := some 50, requests := 0,
     limit_total := some 10, max_page := none }]

/-- Witness for C2 at a concrete store: all four rejection cases fire on
"/plants" with quota remaining. -/
theorem admission_gate_rejection_cases_witness :
    verify_dynamic_api_key c2Keys [] 100 "GET" "/plants" none 200
      = Except.error GateError.unauthenticated
    ∧ verify_dynamic_api_key c2Keys [] 100 "GET" "/plants" (some "BAD") 200
      = Except.error GateError.invalidCredential
    ∧ verify_dynamic_api_key c2Keys [] 100 "GET" "/plants" (some "INA") 200
      = Except.error GateError.inactive
    ∧ verify_dynamic_api_key c2Keys [] 100 "GET" "/plants" (some "EXP") 200
      = Except.error GateError.expired :=
  have h := admission_gate_rejection_cases c2Keys [] 100 "/plants" 200 (by decide)
  ⟨h.1.1,
   h.2.1 "BAD" (by decide) rfl,
   h.2.2.1 "INA" (c2Keys.get ⟨0, by decide⟩) (by decide) rfl rfl,
   h.2.2.2 "EXP" (c2Keys.get ⟨1, by decide⟩) 50 (by decide) rfl rfl rfl
     (by decide)⟩

/-! ## C4: quota exhaustion -/

/-- A key one request away from its quota, for the C4 counterexample. -/
def c4Key : ApiKeyRow :=
  { api_key := "Q", owner := "o", plan_name := "free", active := true,
    created_at := 0, expires_at := none, requests := 4,
    limit_total := some 5, max_page := some 10 }

/-- C4 counterexample: at the increment that reaches the quota (the
key's 5th admitted request, quota 5), the key is NOT deactivated — its
active flag is still true afterwards, and no cooldown is recorded (no
next_issue_allowed column exists in this code at all). -/
theorem quota_reaching_increment_leaves_key_active :
    verify_dynamic_api_key [c4Key] [] 10 "GET" "/plants" (some "Q") 200
      = Except.ok (200, [{c4Key with requests := 5}], [("Q", "/plants", 200)])
    ∧ ({c4Key with requests := 5}).active = true :=
  ⟨rfl, rfl⟩

/-- C4 amended: once `requests` has reached a nonzero quota, every
further non-exempt request fails with QuotaExceeded (429); and the
post-response increment never modifies anything but the usage counter —
in particular it never deactivates the key and records no cooldown. -/
theorem quota_exhaustion_blocks_without_deactivation
    (keys : List ApiKeyRow) (logs : List LogRow) (now hs : Nat)
    (path k : String) (r : ApiKeyRow) (q : Nat)
    (hne : isExemptPath path = false) (hk : k ≠ "")
    (hf : keys.find? (fun r2 => r2.api_key == k) = some r)
    (hact : r.active = true)
    (hexp : expiredAt r.expires_at now = false)
    (hq : r.limit_total = some q) (hq0 : q ≠ 0) (hge : q ≤ r.requests) :
    verify_dynamic_api_key keys logs now "GET" path (some k) hs
      = Except.error GateError.quotaExceeded
    ∧ statusOf GateError.quotaExceeded = 429
    ∧ (incrementRequests keys k).map (fun r2 => r2.active)
        = keys.map (fun r2 => r2.active)
    ∧ (incrementRequests keys k).map (fun r2 =>
          (r2.api_key, r2.owner, r2.plan_name, r2.expires_at, r2.limit_total,
           r2.max_page))
        = keys.map (fun r2 =>
          (r2.api_key, r2.owner, r2.plan_name, r2.expires_at, r2.limit_total,
           r2.max_page)) := by
  have hm : (("GET" : String) == "OPTIONS") = false := rfl
  have hlim : limitReached r.limit_total r.requests = true := by
    simp [limitReached, hq, hq0, hge]
  refine ⟨?_, rfl, ?_, ?_⟩
  · simp [verify_dynamic_api_key, hm, hne, beq_eq_false_iff_ne.mpr hk, hf,
      hact, hexp, hlim]
  · rw [incrementRequests, List.map_map]
    exact List.map_congr_left (fun a _ => by
      by_cases h : a.api_key = k <;> simp [h])
  · rw [incrementRequests, List.map_map]
    exact List.map_congr_left (fun a _ => by
      by_cases h : a.api_key = k <;> simp [h])

/-- Witness for C4 at a concrete store: a key whose 5 requests have
consumed its quota of 5 is refused with QuotaExceeded/429. -/
theorem quota_exhaustion_blocks_without_deactivation_witness :
    verify_dynamic_api_key [{c4Key with requests := 5}] [] 10 "GET" "/plants"
        (some "Q") 200
      = Except.error GateError.quotaExceeded
    ∧ statusOf GateError.quotaExceeded = 429 :=
  have h := quota_exhaustion_blocks_without_deactivation
    [{c4Key with requests := 5}] [] 10 200 "/plants" "Q"
    {c4Key with requests := 5} 5 (by decide) (by decide) rfl rfl rfl rfl
    (by decide) (by decide)
  ⟨h.1, h.2.1⟩

/-! ## C5: zone filter -/

/-- C5 counterexample: at queried zone Z = 12 and stored value "13"
(which parses as the range [13,13]) the claim's rule `a ≤ Z+1 and
b ≥ Z-1` says the record matches, but the code binds the clamped bound
`zmax = min(Z+1, 12)` and does not match; and at the unparsable stored
value "abc" the code raises a cast error that fails the whole query
instead of falling back to a substring match (the fallback in the code is
keyed on the queried value failing to parse, not the stored one). -/
theorem zone_filter_clamp_and_cast_error :
    zoneSpecMatch 12 "13" = true
    ∧ zoneFilter "12" "13" = Except.ok false
    ∧ zoneFilter "5" "abc" = Except.error () :=
  ⟨rfl, rfl, rfl⟩

/-- C5 amended: for a queried value parsing as the integer z, a stored
value parsing (after dash normalization) as the range [a,b] matches iff
`a ≤ min(z+1, 12)` and `b ≥ max(z-1, 1)` (the bounds are clamped to the
zone scale); a non-blank stored value that does not parse raises a cast
error failing the whole query; and the raw substring fallback applies
exactly when the queried value itself fails integer parsing. -/
theorem zone_filter_clamped_range_semantics
    (s stored : String) (z a b : Int)
    (hz : pyToInt (pyStrip s) = some z)
    (hne : (sqlTrim stored == "") = false) :
    (zoneRangeParse stored = some (a, b) →
      zoneFilter s stored
        = Except.ok (decide (a ≤ min (z + 1) 12) && decide (max (z - 1) 1 ≤ b)))
    ∧ (zoneRangeParse stored = none → zoneFilter s stored = Except.error ())
    ∧ (∀ q : String, pyToInt (pyStrip q) = none →
        zoneFilter q stored = Except.ok (likeContains stored (pyStrip q))) := by
  refine ⟨?_, ?_, ?_⟩
  · intro hp
    simp [zoneFilter, hz, zoneSqlPred, hne, hp]
  · intro hp
    simp [zoneFilter, hz, zoneSqlPred, hne, hp]
  · intro q hq
    simp [zoneFilter, hq]

/-- Witness for C5 at queried zone 7 and stored range "5-8". -/
theorem zone_filter_clamped_range_semantics_witness :
    pyToInt (pyStrip "7") = some 7
    ∧ zoneRangeParse "5-8" = some (5, 8)
    ∧ zoneFilter "7" "5-8"
      = Except.ok (decide ((5 : Int) ≤ min (7 + 1) 12)
          && decide (max (7 - 1) 1 ≤ (8 : Int))) :=
  ⟨rfl, rfl,
   (zone_filter_clamped_range_semantics "7" "5-8" 7 5 8 rfl rfl).1 rfl⟩

/-! ## C6: plan filter masking -/

/-- C6: under a plan that defines an allowed_filter set, a request whose
query parameters include a name outside the allowed set and outside the
always-allowed pagination/sort/search-field set fails with
FilterNotPermitted (403), whatever the parameter's value is. -/
theorem filter_mask_rejects_unpermitted_param
    (allow : List String) (qps : List (String × String)) (name val : String)
    (hmem : (name, val) ∈ qps)
    (hna : allow.contains name = false)
    (hnw : alwaysAllowedParams.contains name = false) :
    filterMaskCheck (some allow) qps = Except.error GateError.filterNotPermitted
    ∧ statusOf GateError.filterNotPermitted = 403 := by
  refine ⟨?_, rfl⟩
  have hall : qps.all (fun qp =>
      allow.contains qp.1 || alwaysAllowedParams.contains qp.1) = false := by
    cases h : qps.all (fun qp =>
        allow.contains qp.1 || alwaysAllowedParams.contains qp.1) with
    | false => rfl
    | true =>
      have := List.all_eq_true.mp h (name, val) hmem
      rw [hna, hnw] at this
      exact absurd this (by simp)
  simp only [filterMaskCheck, hall, Bool.false_eq_true, if_false]

/-- Witness for C6: a plan allowing only the "light" filter rejects a
request using zone_usda. -/
theorem filter_mask_rejects_unpermitted_param_witness :
    filterMaskCheck (some ["light"]) [("zone_usda", "7")]
      = Except.error GateError.filterNotPermitted
    ∧ statusOf GateError.filterNotPermitted = 403 :=
  filter_mask_rejects_unpermitted_param ["light"] [("zone_usda", "7")]
    "zone_usda" "7" (by simp) (by decide) (by decide)

/-! ## C7: payment session creation -/

/-- The plans table of the C7 scenario: the free tier (price 0) and a
paid premium tier. -/
def c7Plans : List PlanRow :=
  [{ name := "free", price_rub := 0, limit_total := some 500, max_page := some 10 },
   { name := "premium", price_rub := 990, limit_total := none, max_page := some 100 }]

/-- C7 counterexample: an unknown plan is rejected with HTTP 404 ("Plan
not found"), not with a 400 UnknownPlan as the claim's taxonomy says; and
the free tier is not rejected at all — no UnsupportedPlan check exists,
the session proceeds to request a payment of 0 from the processor. -/
theorem payment_session_unknown_plan_404_and_free_accepted :
    create_payment_session c7Plans (some "gold") (some "a@b.com") true
      = SessionResult.httpError 404 "Plan not found"
    ∧ create_payment_session c7Plans (some "free") (some "a@b.com") true
      = SessionResult.paymentRequested 0 "free" "a@b.com" :=
  ⟨rfl, rfl⟩

/-- C7 amended: with processor credentials configured, CreateSession
fails with HTTP 404 "Plan not found" when the named plan is absent from
the plans table, and this happens before any payment request is made; for
every plan present in the table — the free tier included — no error is
raised and a payment request for the plan's price is issued. -/
theorem payment_session_plan_lookup_behavior
    (plans : List PlanRow) (p email : String) :
    (plans.find? (fun q => pyLower q.name == pyLower p) = none →
      create_payment_session plans (some p) (some email) true
        = SessionResult.httpError 404 "Plan not found")
    ∧ (∀ row, plans.find? (fun q => pyLower q.name == pyLower p) = some row →
        create_payment_session plans (some p) (some email) true
          = SessionResult.paymentRequested row.price_rub (pyLower p) email) := by
  constructor
  · intro hf
    simp [create_payment_session, hf]
  · intro row hf
    simp [create_payment_session, hf]

/-- Witness for C7: the premium plan is found and a payment for its
price is requested; the unknown plan "gold" gets the 404. -/
theorem payment_session_plan_lookup_behavior_witness :
    create_payment_session c7Plans (some "premium") (some "a@b.com") true
      = SessionResult.paymentRequested 990 (pyLower "premium") "a@b.com"
    ∧ create_payment_session c7Plans (some "gold") (some "a@b.com") true
      = SessionResult.httpError 404 "Plan not found" :=
  ⟨(payment_session_plan_lookup_behavior c7Plans "premium" "a@b.com").2
     { name := "premium", price_rub := 990, limit_total := none,
       max_page := some 100 } rfl,
   (payment_session_plan_lookup_behavior c7Plans "gold" "a@b.com").1 rfl⟩

/-! ## C8: one-time login tokens -/

/-- C8: a successful verification finds the token unused and unexpired
and marks exactly that token used in the resulting store; and on the
resulting store any second verification attempt with the same token
string fails with token_already_used, whatever the clock says — the
"used" check precedes the expiry check, so this holds even for a still
unexpired token. -/
theorem login_token_single_use
    (tokens : List AuthTokenRow) (users : List UserRow)
    (tok freshKey : String) (now uid : Nat) (key : String)
    (tokens1 : List AuthTokenRow) (users1 : List UserRow)
    (hsucc : verify_login_token tokens users tok now freshKey
      = Except.ok (uid, key, tokens1, users1)) :
    (∃ t, tokens.find? (fun x => x.token == tok) = some t
       ∧ t.used = false ∧ ¬ t.expires_at < now
       ∧ tokens1.find? (fun x => x.token == tok) = some {t with used := true})
    ∧ (∀ (now2 : Nat) (fk2 : String),
        verify_login_token tokens1 users1 tok now2 fk2
          = Except.error VerifyError.tokenAlreadyUsed) := by
  unfold verify_login_token at hsucc
  split at hsucc
  next => exact absurd hsucc (by simp)
  next t hft =>
    split at hsucc
    next => exact absurd hsucc (by simp)
    next u hfu =>
      split at hsucc
      next hused => exact absurd hsucc (by simp)
      next hused =>
        split at hsucc
        next hexp => exact absurd hsucc (by simp)
        next hexp =>
          dsimp only at hsucc
          have htokpred : ∀ x : AuthTokenRow,
              ((if x.id == t.id then {x with used := true} else x).token == tok)
                = (x.token == tok) := by
            intro x; by_cases h : (x.id == t.id) = true <;> simp [h]
          cases hak : u.api_key with
          | none =>
            rw [hak] at hsucc
            simp only [Except.ok.injEq, Prod.mk.injEq] at hsucc
            obtain ⟨huid, hkey, htok1, husr1⟩ := hsucc
            have hfind1 : tokens1.find? (fun x => x.token == tok)
                = some {t with used := true} := by
              rw [← htok1]
              simpa using find?_map_of_pred_preserved _ _ htokpred tokens t hft
            refine ⟨⟨t, hft, by simpa using hused, hexp, hfind1⟩, ?_⟩
            intro now2 fk2
            have hgid : ∀ x : UserRow,
                ((if x.id == u.id
                    then {x with api_key := some freshKey, last_login := some now}
                    else x).id == t.user_id) = (x.id == t.user_id) := by
              intro x; by_cases h : (x.id == u.id) = true <;> simp [h]
            have hfindu : users1.find? (fun x => x.id == t.user_id)
                = some (if u.id == u.id
                    then {u with api_key := some freshKey, last_login := some now}
                    else u) := by
              rw [← husr1]
              exact find?_map_of_pred_preserved _ _ hgid users u hfu
            unfold verify_login_token
            rw [hfind1]
            dsimp only
            rw [hfindu]
            dsimp only
            split
            next h => rfl
            next h => exact absurd rfl h
          | some k0 =>
            rw [hak] at hsucc
            simp only [Except.ok.injEq, Prod.mk.injEq] at hsucc
            obtain ⟨huid, hkey, htok1, husr1⟩ := hsucc
            have hfind1 : tokens1.find? (fun x => x.token == tok)
                = some {t with used := true} := by
              rw [← htok1]
              simpa using find?_map_of_pred_preserved _ _ htokpred tokens t hft
            refine ⟨⟨t, hft, by simpa using hused, hexp, hfind1⟩, ?_⟩
            intro now2 fk2
            have hgid : ∀ x : UserRow,
                ((if x.id == u.id then {x with last_login := some now}
                    else x).id == t.user_id) = (x.id == t.user_id) := by
              intro x; by_cases h : (x.id == u.id) = true <;> simp [h]
            have hfindu : users1.find? (fun x => x.id == t.user_id)
                = some (if u.id == u.id then {u with last_login := some now}
                    else u) := by
              rw [← husr1]
              exact find?_map_of_pred_preserved _ _ hgid users u hfu
            unfold verify_login_token
            rw [hfind1]
            dsimp only
            rw [hfindu]
            dsimp only
            split
            next h => rfl
            next h => exact absurd rfl h

/-- Witness for C8: one fresh token, one user without a key; the first
verification succeeds and mints "NK", the replayed verification fails
with token_already_used even though the token is still unexpired. -/
theorem login_token_single_use_witness :
    verify_login_token
      ([{ id := 1, user_id := 7, token := "tok", expires_at := 1000,
          used := false }] : List AuthTokenRow)
      ([{ id := 7, email := "a@b.com", api_key := none,
          last_login := none }] : List UserRow) "tok" 10 "NK"
      = Except.ok (7, "NK",
          [{ id := 1, user_id := 7, token := "tok", expires_at := 1000,
             used := true }],
          [{ id := 7, email := "a@b.com", api_key := some "NK",
             last_login := some 10 }])
    ∧ verify_login_token
        ([{ id := 1, user_id := 7, token := "tok", expires_at := 1000,
            used := true }] : List AuthTokenRow)
        ([{ id := 7, email := "a@b.com", api_key := some "NK",
            last_login := some 10 }] : List UserRow) "tok" 11 "NK2"
        = Except.error VerifyError.tokenAlreadyUsed :=
  ⟨rfl,
   (login_token_single_use
      [{ id := 1, user_id := 7, token := "tok", expires_at := 1000,
         used := false }]
      [{ id := 7, email := "a@b.com", api_key := none, last_login := none }]
      "tok" "NK" 10 7 "NK"
      [{ id := 1, user_id := 7, token := "tok", expires_at := 1000,
         used := true }]
      [{ id := 7, email := "a@b.com", api_key := some "NK",
         last_login := some 10 }] rfl).2 11 "NK2"⟩

/-! ## C9: light filter -/

/-- C9: for a light category with a non-empty expansion set, the
predicate the code generates holds exactly when some pattern of the set
is a substring of the stored value, both sides lower-cased — an
OR-of-LIKE, never an exact equality; concretely, light=яркий matches the
stored values "full sun", "яркий свет" and "солнечно" but not "тень",
and "яркий свет" matches without being a member of the expansion set. -/
theorem light_filter_is_or_of_substring
    (light stored : String) (pats : List String)
    (hl : lightLookup light = pats) (hne : pats ≠ []) :
    (lightSqlPred light stored = true
      ↔ ∃ pat ∈ pats, (pyLower pat).data <:+: (pyLower stored).data)
    ∧ lightSqlPred "яркий" "full sun" = true
    ∧ lightSqlPred "яркий" "яркий свет" = true
    ∧ lightSqlPred "яркий" "солнечно" = true
    ∧ lightSqlPred "яркий" "тень" = false
    ∧ ¬ ("яркий свет" ∈ lightLookup "яркий") := by
  refine ⟨?_, by decide, by decide, by decide, by decide, by decide⟩
  unfold lightSqlPred
  rw [hl]
  have hie : pats.isEmpty = false := by
    cases pats with
    | nil => exact absurd rfl hne
    | cons a as => rfl
  simp [hie, List.any_eq_true, likeContains, substrChars_iff]

/-- Witness for C9: the expansion set of яркий is non-empty and the
concrete end-to-end matches hold. -/
theorem light_filter_is_or_of_substring_witness :
    lightLookup "яркий" = ["full sun", "sun", "прямое солнце", "яркий", "солнеч"]
    ∧ lightSqlPred "яркий" "full sun" = true
    ∧ lightSqlPred "яркий" "тень" = false :=
  have h := light_filter_is_or_of_substring "яркий" "full sun"
    ["full sun", "sun", "прямое солнце", "яркий", "солнеч"] rfl (by decide)
  ⟨rfl, h.2.1, h.2.2.2.2.1⟩

/-! ## C10: self-service key issuance rate limit -/

/-- With the master key presented, `generate_api_key` always succeeds:
the owner's previously active keys are deactivated and the fresh key row
is appended with the plan's limits. -/
theorem generate_api_key_master_ok (masterKey : String) (keys : List ApiKeyRow)
    (plans : List PlanRow) (owner plan : String) (now : Nat) (newKey : String) :
    generate_api_key masterKey masterKey keys plans owner plan now newKey
      = Except.ok (
          (keys.map (fun r =>
            if pyLower r.owner == pyLower (pyStrip owner) && r.active
            then {r with active := false} else r))
          ++ [{ api_key := newKey, owner := pyLower (pyStrip owner),
                plan_name := plan, active := true, created_at := now,
                expires_at :=
                  if plan == "free" then some (now + 90 * 86400) else none,
                requests := 0,
                limit_total :=
                  match findPlan plans plan with
                  | some q => q.limit_total
                  | none => none,
                max_page :=
                  match findPlan plans plan with
                  | some q => q.max_page
                  | none => none }],
          (match findPlan plans plan with
           | some q => q.limit_total
           | none => none),
          (match findPlan plans plan with
           | some q => q.max_page
           | none => none)) := by
  unfold generate_api_key
  rw [if_neg (by simp)]

/-- C10: the 24-hour rate limit of POST /create_user_key applies only to
the free plan.  For every other requested plan (after strip+lower
normalization) the endpoint goes straight to the master-key issuance
path of `generate_api_key`, which always succeeds — the new active key
for the requested plan is appended to the store, no payment state is
consulted.  And for the free plan, a free key issued to the same IP less
than 24 hours ago makes the endpoint fail with 429. -/
theorem create_user_key_rate_limit_only_for_free
    (masterKey ip p newKey : String) (keys : List ApiKeyRow)
    (plans : List PlanRow) (now : Nat)
    (hp : pyLower (pyStrip p) ≠ "free") :
    (create_user_key masterKey keys plans ip (some p) now newKey
      = generate_api_key masterKey masterKey keys plans ip
          (pyLower (pyStrip p)) now newKey)
    ∧ (∃ keys1 lt mp,
        generate_api_key masterKey masterKey keys plans ip
            (pyLower (pyStrip p)) now newKey
          = Except.ok (keys1, lt, mp)
        ∧ keys1.getLast? = some
            { api_key := newKey, owner := pyLower (pyStrip ip),
              plan_name := pyLower (pyStrip p), active := true,
              created_at := now, expires_at := none, requests := 0,
              limit_total :=
                match findPlan plans (pyLower (pyStrip p)) with
                | some q => q.limit_total
                | none => none,
              max_page :=
                match findPlan plans (pyLower (pyStrip p)) with
                | some q => q.max_page
                | none => none })
    ∧ (∀ c : Nat,
        maxCreatedAt ((keys.filter (fun r =>
            r.plan_name == "free" && r.owner == ip)).map
          (fun r => r.created_at)) = some c →
        now - c < 86400 →
        create_user_key masterKey keys plans ip (some "free") now newKey
          = Except.error
              (429, "Бесплатный ключ можно создавать не чаще одного раза в сутки.")) := by
  have hb : (pyLower (pyStrip p) == "free") = false := beq_eq_false_iff_ne.mpr hp
  refine ⟨?_, ?_, ?_⟩
  · simp [create_user_key, hb]
  · refine ⟨_, _, _, generate_api_key_master_ok masterKey keys plans ip
      (pyLower (pyStrip p)) now newKey, ?_⟩
    rw [List.getLast?_concat]
    simp [hb]
  · intro c hc hlt
    unfold create_user_key
    simp only [Option.getD_some]
    rw [show pyLower (pyStrip "free") = "free" from rfl]
    rw [if_pos (show (("free" : String) == "free") = true from rfl)]
    rw [hc]
    simp [hlt]

/-- Witness for C10: requesting the premium plan with no prior keys
issues a premium key immediately through the master-key path. -/
theorem create_user_key_rate_limit_only_for_free_witness :
    create_user_key "M" []
        [{ name := "premium", price_rub := 990, limit_total := some 1000,
           max_page := some 100 }] "1.2.3.4" (some "premium") 0 "NK"
      = generate_api_key "M" "M" []
        [{ name := "premium", price_rub := 990, limit_total := some 1000,
           max_page := some 100 }] "1.2.3.4" (pyLower (pyStrip "premium")) 0 "NK"
    ∧ generate_api_key "M" "M" []
        [{ name := "premium", price_rub := 990, limit_total := some 1000,
           max_page := some 100 }] "1.2.3.4" (pyLower (pyStrip "premium")) 0 "NK"
      = Except.ok
          ([{ api_key := "NK", owner := "1.2.3.4", plan_name := "premium",
              active := true, created_at := 0, expires_at := none,
              requests := 0, limit_total := some 1000, max_page := some 100 }],
           some 1000, some 100) :=
  ⟨(create_user_key_rate_limit_only_for_free "M" "1.2.3.4" "premium" "NK" []
      [{ name := "premium", price_rub := 990, limit_total := some 1000,
         max_page := some 100 }] 0 (by decide)).1,
   rfl⟩

end GreenCore

